import Mathlib

/-!
Verification development for `Bazhenator/tools`.

Shallow embedding of the Go packages `logger` (`init.go`, `zap.go`, `logger.go`,
`stacktrace.go`) and `server/grpc/listener` (`listener.go`).

Conventions of the embedding:

* a Go `error` is `Option GoError`, `none` being `nil`;
* `go.uber.org/multierr` is modelled by `multierr.Append` / `multierr.AppendInto`
  on those values (a combined error keeps its entries in insertion order);
* the process environment read by `os.LookupEnv` is a function
  `String → Option String`;
* Go integers (`int`, `int8`, `int64`) are `Int`; no arithmetic is performed on
  them in the embedded code, so overflow never arises;
* side effects (log lines, replacing the global logger, binding a socket) are
  returned as an explicit list of `Event`s next to the result.
-/

namespace Tools

/-! ## Errors -/

/-- A leaf error: either built by `fmt.Errorf` / `errors.New` (its message), or a
`*strconv.NumError` (function, offending input, reason). -/
inductive BaseError where
  | errorf (msg : String)
  | numError (fn : String) (num : String) (reason : String)
  deriving DecidableEq, Repr

/-- A non-nil Go error: a single error or a `multierr` combination. -/
inductive GoError where
  | base (e : BaseError)
  | multi (es : List BaseError)
  deriving DecidableEq, Repr

/-- The process environment as seen by `os.LookupEnv`. -/
abbrev Env := String → Option String

/-- The environment holding exactly the listed `NAME=value` pairs. -/
def envOf (vars : List (String × String)) : Env := fun name => vars.lookup name

namespace multierr

/-- Entries of an error, as `multierr.Errors` lists them (`nil` has none). -/
def Errors : Option GoError → List BaseError
  | none => []
  | some (.base e) => [e]
  | some (.multi es) => es

/-- `multierr.Append`: `nil` is the identity, otherwise the entries are
flattened into one combined error. -/
def Append (left right : Option GoError) : Option GoError :=
  match left, right with
  | none, r => r
  | l, none => l
  | some l, some r => some (.multi (Errors (some l) ++ Errors (some r)))

/-- `multierr.AppendInto(&into, err)`: the new value of `into`. -/
def AppendInto (into : Option GoError) (err : Option GoError) : Option GoError :=
  match err with
  | none => into
  | some e => Append into (some e)

end multierr

/-- `fmt.Errorf` with a fully rendered message. -/
def Errorf (msg : String) : Option GoError := some (.base (.errorf msg))

/-! ## `logger/init.go` -/

namespace zapcore

/-- `zapcore.Level` is an `int8`. -/
abbrev Level := Int

abbrev DebugLevel : Level := -1
abbrev InfoLevel : Level := 0
abbrev WarnLevel : Level := 1
abbrev ErrorLevel : Level := 2
abbrev DPanicLevel : Level := 3
abbrev PanicLevel : Level := 4
abbrev FatalLevel : Level := 5

/-- `zapcore.Level.String` (lower-case name, `Level(n)` for an unknown one). -/
def Level.String (l : Level) : String :=
  if l = DebugLevel then "debug"
  else if l = InfoLevel then "info"
  else if l = WarnLevel then "warn"
  else if l = ErrorLevel then "error"
  else if l = DPanicLevel then "dpanic"
  else if l = PanicLevel then "panic"
  else if l = FatalLevel then "fatal"
  else "Level(" ++ toString l ++ ")"

end zapcore

namespace logger

def EnvLoggerEnvironment : String := "ZAP_ENVIRONMENT"
def DefLoggerEnvironment : String := "development"
def EnvLoggerLevel : String := "ZAP_LEVEL"
def DefLoggerLevel : String := "debug"

/-- `type LoggerEnvironment int64`. -/
abbrev LoggerEnvironment := Int

abbrev Development : LoggerEnvironment := 1
abbrev Production : LoggerEnvironment := 2
abbrev DevelopmentJson : LoggerEnvironment := 3

/-- `LoggerEnvironment.String`. -/
def LoggerEnvironment.String (s : LoggerEnvironment) : String :=
  if s = Development then "development"
  else if s = Production then "production"
  else if s = DevelopmentJson then "development-json"
  else "unknown"

/-- `LoggerEnvironment.CheckOnDefine`. -/
def LoggerEnvironment.CheckOnDefine (s : LoggerEnvironment) : Option GoError :=
  if s = Development then none
  else if s = Production then none
  else if s = DevelopmentJson then none
  else Errorf
    ("logger environment not defined, use one of predefined logger environment: "
      ++ LoggerEnvironment.String Development ++ ", "
      ++ LoggerEnvironment.String Production ++ ", "
      ++ LoggerEnvironment.String DevelopmentJson)

/-- `CheckZapLevel`. -/
def CheckZapLevel (level : zapcore.Level) : Option GoError :=
  if level = zapcore.DebugLevel ∨
      level = zapcore.InfoLevel ∨
      level = zapcore.WarnLevel ∨
      level = zapcore.ErrorLevel ∨
      level = zapcore.DPanicLevel ∨
      level = zapcore.PanicLevel ∨
      level = zapcore.FatalLevel then
    none
  else
    Errorf
      ("zap level not defined, use predefined zap level:" ++
        ("\n"
          ++ "\t\t" ++ zapcore.Level.String zapcore.DebugLevel ++ "\n"
          ++ "\t\t" ++ zapcore.Level.String zapcore.InfoLevel ++ "\n"
          ++ "\t\t" ++ zapcore.Level.String zapcore.WarnLevel ++ "\n"
          ++ "\t\t" ++ zapcore.Level.String zapcore.ErrorLevel ++ "\n"
          ++ "\t\t" ++ zapcore.Level.String zapcore.DPanicLevel ++ "\n"
          ++ "\t\t" ++ zapcore.Level.String zapcore.PanicLevel ++ "\n"
          ++ "\t\t" ++ zapcore.Level.String zapcore.FatalLevel ++ "\n"))

/-- `ToLoggerEnvironment`. -/
def ToLoggerEnvironment (arg : String) : LoggerEnvironment :=
  if arg = "development" then Development
  else if arg = "production" then Production
  else if arg = "development-json" then DevelopmentJson
  else Development

/-- `ToLoggerLevel`. -/
def ToLoggerLevel (arg : String) : zapcore.Level :=
  if arg = "debug" then zapcore.DebugLevel
  else if arg = "info" then zapcore.InfoLevel
  else if arg = "warn" then zapcore.WarnLevel
  else if arg = "error" then zapcore.ErrorLevel
  else zapcore.DebugLevel

/-! ## `logger/zap.go` -/

/-- `LoggerConfig`. -/
structure LoggerConfig where
  Environment : LoggerEnvironment
  Level : zapcore.Level
  deriving DecidableEq, Repr

/-- `NewLoggerConfig`, reading the environment `env`; the pair is the Go result
`(*LoggerConfig, error)`. -/
def NewLoggerConfig (env : Env) : Option LoggerConfig × Option GoError :=
  let multiErr : Option GoError := none
  let multiErr :=
    if (env EnvLoggerEnvironment).isNone then
      multierr.AppendInto multiErr (Errorf (EnvLoggerEnvironment ++ " is not defined"))
    else multiErr
  let multiErr :=
    if (env EnvLoggerLevel).isNone then
      multierr.AppendInto multiErr (Errorf (EnvLoggerLevel ++ " is not defined"))
    else multiErr
  if multiErr ≠ none then
    (none, multiErr)
  else
    (some
      { Environment := ToLoggerEnvironment ((env EnvLoggerEnvironment).getD "")
        Level := ToLoggerLevel ((env EnvLoggerLevel).getD "") },
     none)

/-- `LoggerConfig.checkEmptyFields`. -/
def LoggerConfig.checkEmptyFields (c : LoggerConfig) : Option GoError :=
  let multiErr : Option GoError := none
  let multiErr := multierr.AppendInto multiErr (LoggerEnvironment.CheckOnDefine c.Environment)
  let multiErr := multierr.AppendInto multiErr (CheckZapLevel c.Level)
  multiErr

end logger

/-! ### The part of `go.uber.org/zap` that `GetLogger` touches -/

namespace zapcore

/-- `zapcore.EncoderConfig`; encoder functions are recorded by name (or, for the
time encoder, by its layout), `none` being a `nil` encoder. -/
structure EncoderConfig where
  MessageKey : String
  LevelKey : String
  TimeKey : String
  NameKey : String
  CallerKey : String
  FunctionKey : String
  StacktraceKey : String
  LineEnding : String
  EncodeLevel : Option String
  EncodeTime : Option String
  EncodeDuration : Option String
  EncodeCaller : Option String
  EncodeName : Option String
  ConsoleSeparator : String
  deriving DecidableEq, Repr

def DefaultLineEnding : String := "\n"

end zapcore

namespace zap

/-- `zap.Config`; `Sampling` and `InitialFields` are only ever `nil` here. -/
structure Config where
  Level : zapcore.Level
  Development : Bool
  DisableCaller : Bool
  DisableStacktrace : Bool
  Sampling : Option Unit
  Encoding : String
  EncoderConfig : zapcore.EncoderConfig
  OutputPaths : List String
  ErrorOutputPaths : List String
  InitialFields : Option Unit
  deriving DecidableEq, Repr

/-- A `*zap.Logger`, identified by how it was obtained: `Config.Build` of a
configuration, or `zap.NewExample()`. -/
inductive Logger where
  | built (cfg : Config)
  | newExample
  deriving DecidableEq, Repr

end zap

/-- Observable side effects of the embedded functions. -/
inductive Event where
  /-- The standard-library `log.Printf(format, err.Error())`. -/
  | logPrintf (format : String) (err : GoError)
  /-- The standard-library `log.Println(err.Error())`. -/
  | logPrintln (err : GoError)
  /-- `l.Warn(msg)` on a zap logger. -/
  | warn (l : zap.Logger) (msg : String)
  /-- `l.Info(msg)` on a zap logger. -/
  | info (l : zap.Logger) (msg : String)
  /-- `zap.ReplaceGlobals(l)`. -/
  | replaceGlobals (l : zap.Logger)
  /-- `sl.Error(msg, zap.Error(err))` on the sugared global logger with
  `entity=grpc`. -/
  | sugarError (msg : String) (err : GoError)
  /-- `sl.Infof` on the same logger, message rendered. -/
  | sugarInfof (msg : String)
  /-- A call `net.Listen(network, address)`. -/
  | netListen (network : String) (address : String)
  /-- A call `lis.Close()` made by a release function. -/
  | close
  deriving DecidableEq, Repr

namespace logger

/-- The `zap.Config` literal shared by the two development branches of
`GetLogger`, up to its `Encoding`. -/
def devConfig (level : zapcore.Level) (encoding : String) : zap.Config :=
  { Level := level
    Development := true
    DisableCaller := false
    DisableStacktrace := true
    Sampling := none
    Encoding := encoding
    EncoderConfig :=
      { MessageKey := "M"
        LevelKey := "L"
        TimeKey := "T"
        NameKey := ""
        CallerKey := "C"
        FunctionKey := "F"
        StacktraceKey := ""
        LineEnding := zapcore.DefaultLineEnding
        EncodeLevel := some "CapitalColorLevelEncoder"
        EncodeTime := some "2006-01-02 15:04:05"
        EncodeDuration := none
        EncodeCaller := some "ShortCallerEncoder"
        EncodeName := none
        ConsoleSeparator := " | " }
    OutputPaths := ["stdout"]
    ErrorOutputPaths := ["stderr"]
    InitialFields := none }

/-- Rendering of `fmt.Sprintf("%+v", *c)` for a `LoggerConfig`: both field types
implement `String()`. -/
def LoggerConfig.format (c : LoggerConfig) : String :=
  "\x7bEnvironment:" ++ LoggerEnvironment.String c.Environment
    ++ " Level:" ++ zapcore.Level.String c.Level ++ "\x7d"

/-- The common tail of `GetLogger` once a logger `l` has been obtained. -/
def GetLogger.finish (c : LoggerConfig) (l : zap.Logger) (pre : List Event) :
    (Option zap.Logger × Option GoError) × List Event :=
  ((some l, none),
    pre ++ [Event.replaceGlobals l,
            Event.info l ("logger instance created with config: " ++ LoggerConfig.format c)])

/-- `GetLogger`. `build cfg` is the error (if any) of `cfg.Build()`; the result is
the Go pair `(*zap.Logger, error)` together with the side effects in order. -/
def GetLogger (build : zap.Config → Option GoError) (c : LoggerConfig) :
    (Option zap.Logger × Option GoError) × List Event :=
  match LoggerConfig.checkEmptyFields c with
  | some err => ((none, some err), [Event.logPrintf "error while checking config: %s" err])
  | none =>
    if c.Environment = Development then
      let lConfig := devConfig c.Level "console"
      match build lConfig with
      | some err => ((none, some err), [Event.logPrintln err])
      | none => GetLogger.finish c (zap.Logger.built lConfig) []
    else if c.Environment = DevelopmentJson then
      let lConfig := devConfig c.Level "json"
      match build lConfig with
      | some err => ((none, some err), [Event.logPrintln err])
      | none => GetLogger.finish c (zap.Logger.built lConfig) []
    else
      let l := zap.Logger.newExample
      GetLogger.finish c l [Event.warn l "app environment not set, set default"]

/-! ## `logger/logger.go` -/

/-- `Field`: a key with an untyped value (values of Go type `any` are the
elements of `α`). -/
structure Field (α : Type) where
  Key : String
  Value : α
  deriving DecidableEq, Repr

/-- A `zap.Field` as built by the two constructors the package uses. -/
inductive ZapField (α : Type) where
  /-- `zap.Any(key, value)`. -/
  | Any (key : String) (value : α)
  /-- `zap.String(key, val)`. -/
  | String (key : String) (val : String)
  deriving DecidableEq, Repr

def traceIdKey : String := "traceID"

/-- `NewField`. -/
def NewField {α : Type} (key : String) (value : α) : Field α :=
  { Key := key, Value := value }

/-- The loop of `getZapFields`; a `nil` element of the slice (here `none`) makes
the dereference `f.Key` panic, which is the result `none`. -/
def getZapFields.loop {α : Type} :
    List (Option (Field α)) → List (ZapField α) → Option (List (ZapField α))
  | [], zapFields => some zapFields
  | none :: _, _ => none
  | some f :: rest, zapFields => getZapFields.loop rest (zapFields ++ [ZapField.Any f.Key f.Value])

/-- `getZapFields`. -/
def getZapFields {α : Type} (fields : List (Option (Field α))) : Option (List (ZapField α)) :=
  getZapFields.loop fields []

/-- `getTracingIDs`; `traceID ctx` stands for the tracing collaborator's
`trace.SpanFromContext(ctx).SpanContext().TraceID().String()`. -/
def getTracingIDs {Ctx : Type} (traceID : Ctx → String) (ctx : Ctx) : String :=
  traceID ctx

/-- `getZapFieldsWithCtx`. -/
def getZapFieldsWithCtx {α Ctx : Type} (traceID : Ctx → String) (ctx : Ctx)
    (fields : List (Option (Field α))) : Option (List (ZapField α)) :=
  match getZapFields fields with
  | none => none
  | some zapFields => some (zapFields ++ [ZapField.String traceIdKey (getTracingIDs traceID ctx)])

/-- What a facade method hands to the underlying zap logger: the severity of the
method called, the message, the fields, and the extra caller skip. -/
structure Call (α : Type) where
  Level : zapcore.Level
  Msg : String
  Fields : List (ZapField α)
  CallerSkip : Nat
  deriving DecidableEq, Repr

/-- The shape shared by the eight facade methods:
`log.Logger.WithOptions(zap.AddCallerSkip(1)).<Level>(msg, fields...)`. -/
def emit {α : Type} (level : zapcore.Level) (msg : String) (fields : Option (List (ZapField α))) :
    Option (Call α) :=
  match fields with
  | none => none
  | some fs => some { Level := level, Msg := msg, Fields := fs, CallerSkip := 1 }

/-- `Logger.InfoCtx`. -/
def InfoCtx {α Ctx : Type} (traceID : Ctx → String) (ctx : Ctx) (msg : String)
    (fields : List (Option (Field α))) : Option (Call α) :=
  emit zapcore.InfoLevel msg (getZapFieldsWithCtx traceID ctx fields)

/-- `Logger.ErrorCtx`. -/
def ErrorCtx {α Ctx : Type} (traceID : Ctx → String) (ctx : Ctx) (msg : String)
    (fields : List (Option (Field α))) : Option (Call α) :=
  emit zapcore.ErrorLevel msg (getZapFieldsWithCtx traceID ctx fields)

/-- `Logger.DebugCtx`. -/
def DebugCtx {α Ctx : Type} (traceID : Ctx → String) (ctx : Ctx) (msg : String)
    (fields : List (Option (Field α))) : Option (Call α) :=
  emit zapcore.DebugLevel msg (getZapFieldsWithCtx traceID ctx fields)

/-- `Logger.WarnCtx`. -/
def WarnCtx {α Ctx : Type} (traceID : Ctx → String) (ctx : Ctx) (msg : String)
    (fields : List (Option (Field α))) : Option (Call α) :=
  emit zapcore.WarnLevel msg (getZapFieldsWithCtx traceID ctx fields)

/-- `Logger.Info`. -/
def Info {α : Type} (msg : String) (fields : List (Option (Field α))) : Option (Call α) :=
  emit zapcore.InfoLevel msg (getZapFields fields)

/-- `Logger.Error`. -/
def Error {α : Type} (msg : String) (fields : List (Option (Field α))) : Option (Call α) :=
  emit zapcore.ErrorLevel msg (getZapFields fields)

/-- `Logger.Debug`. -/
def Debug {α : Type} (msg : String) (fields : List (Option (Field α))) : Option (Call α) :=
  emit zapcore.DebugLevel msg (getZapFields fields)

/-- `Logger.Warn`. -/
def Warn {α : Type} (msg : String) (fields : List (Option (Field α))) : Option (Call α) :=
  emit zapcore.WarnLevel msg (getZapFields fields)

/-! ## `logger/stacktrace.go` -/

/-- A `*runtime.Func`: its name and its `FileLine` lookup. -/
structure RuntimeFunc where
  Name : String
  FileLine : Nat → String × Int

/-- `StackFrame`. -/
structure StackFrame where
  FuncName : String
  Filename : String
  Line : Int
  deriving DecidableEq, Repr

/-- `NewStackFrame`; `FuncForPC` is `runtime.FuncForPC` (`none` for `nil`, on
which `Name()` is the empty string). -/
def NewStackFrame (FuncForPC : Nat → Option RuntimeFunc) (framePC : Nat) : StackFrame :=
  let fn := FuncForPC framePC
  let funcName := match fn with
    | none => ""
    | some f => f.Name
  match fn with
  | none => { FuncName := funcName, Filename := "unknown", Line := -1 }
  | some f =>
    let fl := f.FileLine framePC
    { FuncName := funcName, Filename := fl.1, Line := fl.2 }

/-- The verb `%2d` on a loop index: decimal, padded with spaces on the left to
width 2. -/
def fmtIndex (i : Nat) : String :=
  let s := toString i
  String.mk (List.replicate (2 - s.length) ' ') ++ s

/-- `fmt.Sprintf("%2d: %s at %s:%d", i, FuncName, Filename, Line)`. -/
def frameLine (i : Nat) (f : StackFrame) : String :=
  fmtIndex i ++ ": " ++ f.FuncName ++ " at " ++ f.Filename ++ ":" ++ toString f.Line

/-- The `for i, frame := range stack` loop of `buildStacktraceLogString`, from
index `i` on, `len` being `len(stack)` and `builder` the text written so far. -/
def buildStacktraceLogString.loop (FuncForPC : Nat → Option RuntimeFunc) (len : Nat) :
    Nat → List Nat → String → String
  | _, [], builder => builder
  | i, frame :: rest, builder =>
    let frameRepr := NewStackFrame FuncForPC frame
    let builder := builder ++ frameLine i frameRepr
    if i = len - 1 then builder
    else buildStacktraceLogString.loop FuncForPC len (i + 1) rest (builder ++ "\n")

/-- `buildStacktraceLogString`. -/
def buildStacktraceLogString (FuncForPC : Nat → Option RuntimeFunc) (stack : List Nat) : String :=
  buildStacktraceLogString.loop FuncForPC stack.length 0 stack ("" ++ "Stack trace:\n")

end logger

/-! ## `strconv.Atoi` (standard library), for a 64-bit `int` -/

namespace strconv

/-- A `*NumError` of `Atoi` for the input `s`. -/
def syntaxError (s : String) : BaseError := .numError "Atoi" s "invalid syntax"

/-- A `*NumError` of `Atoi` for the input `s`. -/
def rangeError (s : String) : BaseError := .numError "Atoi" s "value out of range"

/-- The digit loop of `ParseUint(_, 10, 64)`: `none` for a non-digit, `some none`
for an overflow of 64 bits, `some (some n)` for the value. -/
def parseDigits : List Char → Nat → Option (Option Nat)
  | [], n => some (some n)
  | c :: cs, n =>
    if c.isDigit then
      if n ≥ 2 ^ 64 / 10 + 1 then some none
      else
        let n1 := n * 10 + (c.toNat - 48)
        if n1 > 2 ^ 64 - 1 then some none else parseDigits cs n1
    else none

/-- `strconv.Atoi`, as the Go pair `(int, error)`: an optional sign, then one or
more decimal digits, the value in the range of `int`; on a range error the
value is clamped. -/
def Atoi (s : String) : Int × Option BaseError :=
  let neg := s.toList.head? = some '-'
  let digits := match s.toList with
    | '-' :: t => t
    | '+' :: t => t
    | cs => cs
  if digits = [] then (0, some (syntaxError s))
  else
    match parseDigits digits 0 with
    | none => (0, some (syntaxError s))
    | some r =>
      let un := r.getD (2 ^ 64 - 1)
      if ¬ neg ∧ un ≥ 2 ^ 63 then (2 ^ 63 - 1, some (rangeError s))
      else if neg ∧ un > 2 ^ 63 then (-(2 ^ 63), some (rangeError s))
      else (if neg then -(un : Int) else (un : Int), none)

end strconv

/-! ## `server/grpc/listener/listener.go` -/

namespace listener

def EnvGrpcHost : String := "GRPC_HOST"
def EnvGrpcPort : String := "GRPC_PORT"
def EnvGrpcTimeout : String := "CONTEXT_TIMEOUT"
def DefGrpcTimeout : Int := 30000
def EnvMaxGrpcReceive : String := "MAX_GRPC_RECEIVE"
def DefMaxGrpcReceive : Int := 1024 * 1024 * 1024 * 1
def EnvMaxGrpcSend : String := "MAX_GRPC_SEND"
def DefMaxGrpcSend : Int := 1024 * 1024 * 1024 * 1

/-- `GrpcConfig`. -/
structure GrpcConfig where
  Host : String
  Port : String
  Timeout : Int
  MaxReceiveSize : Int
  MaxSendSize : Int
  deriving DecidableEq, Repr

/-- The message of `fmt.Errorf("field ('%s') is not defined", name)`. -/
def notDefined (name : String) : Option GoError :=
  Errorf ("field ('" ++ name ++ "') is not defined")

/-- `NewStandardGrpcConfig`, reading the environment `env`; the pair is the Go
result `(*GrpcConfig, error)`. -/
def NewStandardGrpcConfig (env : Env) : Option GrpcConfig × Option GoError :=
  let multiErr : Option GoError := none
  match env EnvGrpcHost with
  | none => (none, notDefined EnvGrpcHost)
  | some grpcHost =>
    let grpcPort := (env EnvGrpcPort).getD ""
    let multiErr :=
      match env EnvGrpcPort with
      | none => multierr.AppendInto multiErr (notDefined EnvGrpcPort)
      | some p =>
        match (strconv.Atoi p).2 with
        | some err => multierr.AppendInto multiErr (some (.base err))
        | none => multiErr
    let grpcTimeoutInt : Int := 0
    let grpcTimeoutInt := if (env EnvGrpcTimeout).isNone then DefGrpcTimeout else grpcTimeoutInt
    let maxGrpcReceiveInt : Int := 0
    let maxGrpcReceiveInt :=
      if (env EnvMaxGrpcReceive).isNone then DefMaxGrpcReceive else maxGrpcReceiveInt
    let maxGrpcSendInt : Int := 0
    let maxGrpcSendInt :=
      if (env EnvMaxGrpcSend).isNone then DefMaxGrpcReceive else maxGrpcSendInt
    if multiErr ≠ none then (none, multiErr)
    else
      (some
        { Host := grpcHost
          Port := grpcPort
          Timeout := grpcTimeoutInt
          MaxReceiveSize := maxGrpcReceiveInt
          MaxSendSize := maxGrpcSendInt },
       none)

/-- `GrpcConfig.checkEmptyFields`. -/
def GrpcConfig.checkEmptyFields (c : GrpcConfig) : Option GoError :=
  let err : Option GoError := none
  let err := if c.Port = "" then multierr.AppendInto err (notDefined "port") else err
  let err := if c.Timeout = 0 then multierr.AppendInto err (notDefined "timeout") else err
  let err :=
    if c.MaxReceiveSize = 0 then multierr.AppendInto err (notDefined "maxReceiveSize") else err
  let err := if c.MaxSendSize = 0 then multierr.AppendInto err (notDefined "maxSendSize") else err
  err

/-- The release function returned by `NewGrpcListener`: a closure over the bound
listener `lis`. -/
structure ReleaseFn (L : Type) where
  lis : L
  deriving DecidableEq, Repr

/-- Calling the release function: it closes `lis` (ignoring its argument) and
logs a close-time error without returning it. -/
def ReleaseFn.call {L : Type} (close : L → Option GoError) (f : ReleaseFn L) : List Event :=
  match close f.lis with
  | some err => [Event.close, Event.sugarError "error while closing listner" err]
  | none => [Event.close]

/-- The Go result triple of `NewGrpcListener`. -/
structure ListenerResult (L : Type) where
  lis : Option L
  deferFunc : Option (ReleaseFn L)
  err : Option GoError
  deriving DecidableEq, Repr

/-- `NewGrpcListener`. `listen network address` is `net.Listen`: the bound
listener, or the text of its error. The side effects are returned in order. -/
def NewGrpcListener {L : Type} (listen : String → String → Except String L) (c : GrpcConfig) :
    ListenerResult L × List Event :=
  match GrpcConfig.checkEmptyFields c with
  | some err =>
    ({ lis := none, deferFunc := none, err := some err },
      [Event.sugarError "error while checking config" err])
  | none =>
    let started := Event.sugarInfof ("server has started at " ++ c.Host ++ ":" ++ c.Port)
    let address := c.Host ++ ":" ++ c.Port
    match listen "tcp" address with
    | .error text =>
      ({ lis := none, deferFunc := none, err := Errorf ("failed to strat listener: " ++ text) },
        [started, Event.netListen "tcp" address])
    | .ok lis =>
      ({ lis := some lis, deferFunc := some { lis := lis }, err := none },
        [started, Event.netListen "tcp" address])

end listener

/-! # Theorems -/

open logger listener

/-! ## Helper lemmas -/

theorem Errors_AppendInto (into err : Option GoError) :
    multierr.Errors (multierr.AppendInto into err) = multierr.Errors into ++ multierr.Errors err := by
  rcases into with _ | (a | as) <;> rcases err with _ | (b | bs) <;>
    simp [multierr.AppendInto, multierr.Append, multierr.Errors]

theorem CheckOnDefine_eq_none_iff (e : LoggerEnvironment) :
    LoggerEnvironment.CheckOnDefine e = none ↔
      e = Development ∨ e = Production ∨ e = DevelopmentJson := by
  unfold LoggerEnvironment.CheckOnDefine
  split_ifs with h1 h2 h3 <;> simp_all [Errorf]

theorem CheckZapLevel_eq_none_iff (l : zapcore.Level) :
    CheckZapLevel l = none ↔
      l = zapcore.DebugLevel ∨ l = zapcore.InfoLevel ∨ l = zapcore.WarnLevel ∨
      l = zapcore.ErrorLevel ∨ l = zapcore.DPanicLevel ∨ l = zapcore.PanicLevel ∨
      l = zapcore.FatalLevel := by
  unfold CheckZapLevel
  split_ifs with h <;> simp_all [Errorf]

/-! ## C1 -/

/-- C1: validation accepts exactly the closed sets. `CheckOnDefine` returns nil
iff the environment is Development, Production or DevelopmentJson, and
`CheckZapLevel` returns nil iff the level is one of Debug, Info, Warn, Error,
DPanic, Panic, Fatal; in particular environments 0 and 4 and levels -2 and 6
yield a non-nil error. -/
theorem C1_validation_closed_sets (e : LoggerEnvironment) (l : zapcore.Level) :
    (LoggerEnvironment.CheckOnDefine e = none ↔
      e = Development ∨ e = Production ∨ e = DevelopmentJson) ∧
    (CheckZapLevel l = none ↔
      l = zapcore.DebugLevel ∨ l = zapcore.InfoLevel ∨ l = zapcore.WarnLevel ∨
      l = zapcore.ErrorLevel ∨ l = zapcore.DPanicLevel ∨ l = zapcore.PanicLevel ∨
      l = zapcore.FatalLevel) ∧
    LoggerEnvironment.CheckOnDefine 0 ≠ none ∧ LoggerEnvironment.CheckOnDefine 4 ≠ none ∧
    CheckZapLevel (-2) ≠ none ∧ CheckZapLevel 6 ≠ none :=
  ⟨CheckOnDefine_eq_none_iff e, CheckZapLevel_eq_none_iff l,
    by decide, by decide, by decide, by decide⟩

/-! ## C2 -/

/-- C2 (counterexample): the round trip fails on the levels dpanic, panic and
fatal, whose names `ToLoggerLevel` sends to Debug. -/
theorem C2_counterexample :
    ToLoggerLevel (zapcore.Level.String zapcore.DPanicLevel) ≠ zapcore.DPanicLevel ∧
    ToLoggerLevel (zapcore.Level.String zapcore.PanicLevel) ≠ zapcore.PanicLevel ∧
    ToLoggerLevel (zapcore.Level.String zapcore.FatalLevel) ≠ zapcore.FatalLevel := by
  decide

/-- C2 (amended): `String()` is inverted by the string-to-enum conversion on
each of the three environment variants and on each of the four levels debug,
info, warn, error. -/
theorem C2_roundtrip_recognized (e : LoggerEnvironment) (l : zapcore.Level)
    (he : e = Development ∨ e = Production ∨ e = DevelopmentJson)
    (hl : l = zapcore.DebugLevel ∨ l = zapcore.InfoLevel ∨ l = zapcore.WarnLevel ∨
      l = zapcore.ErrorLevel) :
    ToLoggerEnvironment (LoggerEnvironment.String e) = e ∧
    ToLoggerLevel (zapcore.Level.String l) = l := by
  constructor
  · rcases he with rfl | rfl | rfl <;> decide
  · rcases hl with rfl | rfl | rfl | rfl <;> decide

theorem C2_roundtrip_recognized_witness :
    ToLoggerEnvironment (LoggerEnvironment.String DevelopmentJson) = DevelopmentJson ∧
    ToLoggerLevel (zapcore.Level.String zapcore.ErrorLevel) = zapcore.ErrorLevel :=
  C2_roundtrip_recognized DevelopmentJson zapcore.ErrorLevel (by decide) (by decide)

/-! ## C3 -/

/-- C3: the conversions are total and fail open. A string `s` outside the three
environment names converts to Development, a string `t` outside the seven level
names converts to Debug, and on every string `u` the converted values pass
validation, so no out-of-set value is ever produced (the functions have no
error result at all). -/
theorem C3_conversions_fail_open (s t : String)
    (hs : s ∉ ["development", "production", "development-json"])
    (ht : t ∉ ["debug", "info", "warn", "error", "dpanic", "panic", "fatal"]) :
    ToLoggerEnvironment s = Development ∧
    ToLoggerLevel t = zapcore.DebugLevel ∧
    ∀ u : String, LoggerEnvironment.CheckOnDefine (ToLoggerEnvironment u) = none ∧
      CheckZapLevel (ToLoggerLevel u) = none := by
  refine ⟨?_, ?_, ?_⟩
  · simp only [List.mem_cons, List.mem_singleton, List.not_mem_nil, not_or] at hs
    simp [ToLoggerEnvironment, hs.1, hs.2.1, hs.2.2.1]
  · simp only [List.mem_cons, List.mem_singleton, List.not_mem_nil, not_or] at ht
    simp [ToLoggerLevel, ht.1, ht.2.1, ht.2.2.1, ht.2.2.2.1]
  · intro u
    constructor
    · rw [CheckOnDefine_eq_none_iff]
      unfold ToLoggerEnvironment
      split_ifs <;> simp
    · rw [CheckZapLevel_eq_none_iff]
      unfold ToLoggerLevel
      split_ifs <;> simp

theorem C3_conversions_fail_open_witness :
    ToLoggerEnvironment "staging" = Development ∧
    ToLoggerLevel "verbose" = zapcore.DebugLevel ∧
    ∀ u : String, LoggerEnvironment.CheckOnDefine (ToLoggerEnvironment u) = none ∧
      CheckZapLevel (ToLoggerLevel u) = none :=
  C3_conversions_fail_open "staging" "verbose" (by decide) (by decide)

/-! ## C4 -/

theorem AppendInto_eq_none_iff (into err : Option GoError) :
    multierr.AppendInto into err = none ↔ into = none ∧ err = none := by
  rcases into with _ | a <;> rcases err with _ | b <;>
    simp [multierr.AppendInto, multierr.Append]

/-- C4: `NewLoggerConfig` fails iff at least one of `ZAP_ENVIRONMENT` and
`ZAP_LEVEL` is absent; on failure no config is returned and the aggregated error
has one entry `<NAME> is not defined` for every absent variable, in order (both
when both are unset); when both are present the config
`{ToLoggerEnvironment(env), ToLoggerLevel(level)}` is returned with a nil error. -/
theorem C4_NewLoggerConfig (env : Env) :
    ((NewLoggerConfig env).2 ≠ none ↔
      env EnvLoggerEnvironment = none ∨ env EnvLoggerLevel = none) ∧
    ((NewLoggerConfig env).1 = none ↔ (NewLoggerConfig env).2 ≠ none) ∧
    multierr.Errors (NewLoggerConfig env).2 =
      (if env "ZAP_ENVIRONMENT" = none then [BaseError.errorf "ZAP_ENVIRONMENT is not defined"]
        else []) ++
      (if env "ZAP_LEVEL" = none then [BaseError.errorf "ZAP_LEVEL is not defined"] else []) ∧
    (∀ e l : String, env EnvLoggerEnvironment = some e → env EnvLoggerLevel = some l →
      NewLoggerConfig env =
        (some { Environment := ToLoggerEnvironment e, Level := ToLoggerLevel l }, none)) := by
  have hE : EnvLoggerEnvironment = "ZAP_ENVIRONMENT" := rfl
  have hL : EnvLoggerLevel = "ZAP_LEVEL" := rfl
  have m1 : "ZAP_ENVIRONMENT" ++ " is not defined" = "ZAP_ENVIRONMENT is not defined" := by decide
  have m2 : "ZAP_LEVEL" ++ " is not defined" = "ZAP_LEVEL is not defined" := by decide
  rw [hE, hL]
  rcases h1 : env "ZAP_ENVIRONMENT" with _ | e <;> rcases h2 : env "ZAP_LEVEL" with _ | l <;>
    simp [NewLoggerConfig, hE, hL, h1, h2, m1, m2, multierr.AppendInto, multierr.Append,
      multierr.Errors, Errorf]

theorem C4_NewLoggerConfig_witness :
    NewLoggerConfig (envOf [("ZAP_ENVIRONMENT", "production"), ("ZAP_LEVEL", "info")]) =
      (some { Environment := ToLoggerEnvironment "production", Level := ToLoggerLevel "info" },
        none) :=
  (C4_NewLoggerConfig (envOf [("ZAP_ENVIRONMENT", "production"), ("ZAP_LEVEL", "info")])).2.2.2
    "production" "info" (by decide) (by decide)

/-! ## C5 -/

/-- C5 (counterexample): the unrecognized environment 4 is neither Development
nor DevelopmentJson, yet `GetLogger` fails hard on it: validation rejects the
config, no logger is returned and neither the warning nor any other logger
output is emitted. -/
theorem C5_counterexample :
    (4 : LoggerEnvironment) ≠ Development ∧ (4 : LoggerEnvironment) ≠ DevelopmentJson ∧
    GetLogger (fun _ => none) { Environment := 4, Level := zapcore.InfoLevel } =
      ((none, some (GoError.base (BaseError.errorf
          "logger environment not defined, use one of predefined logger environment: development, production, development-json"))),
        [Event.logPrintf "error while checking config: %s"
          (GoError.base (BaseError.errorf
            "logger environment not defined, use one of predefined logger environment: development, production, development-json"))]) := by
  decide

/-- C5 (amended): for a config whose Environment is neither Development nor
DevelopmentJson, validation passes iff the Environment is Production and the
Level is one of the seven levels; `GetLogger` then falls back to the
fixed example logger, emits the warning, installs and returns that logger with a nil
error. Otherwise (an unrecognized environment, or an invalid level) it returns
the validation error and no logger. -/
theorem C5_GetLogger_fallback (build : zap.Config → Option GoError) (c : LoggerConfig)
    (h1 : c.Environment ≠ Development) (h2 : c.Environment ≠ DevelopmentJson) :
    (LoggerConfig.checkEmptyFields c = none ↔
      c.Environment = Production ∧ CheckZapLevel c.Level = none) ∧
    GetLogger build c =
      match LoggerConfig.checkEmptyFields c with
      | some err => ((none, some err), [Event.logPrintf "error while checking config: %s" err])
      | none =>
        ((some zap.Logger.newExample, none),
          [Event.warn zap.Logger.newExample "app environment not set, set default",
           Event.replaceGlobals zap.Logger.newExample,
           Event.info zap.Logger.newExample
             ("logger instance created with config: " ++ LoggerConfig.format c)]) := by
  constructor
  · unfold LoggerConfig.checkEmptyFields
    simp only [AppendInto_eq_none_iff, CheckOnDefine_eq_none_iff, true_and]
    constructor
    · rintro ⟨he | he | he, hl⟩
      · exact absurd he h1
      · exact ⟨he, hl⟩
      · exact absurd he h2
    · rintro ⟨he, hl⟩
      exact ⟨Or.inr (Or.inl he), hl⟩
  · unfold GetLogger
    cases LoggerConfig.checkEmptyFields c with
    | some err => rfl
    | none => simp [h1, h2, GetLogger.finish]

theorem C5_GetLogger_fallback_witness :
    GetLogger (fun _ => none) { Environment := Production, Level := zapcore.InfoLevel } =
      ((some zap.Logger.newExample, none),
        [Event.warn zap.Logger.newExample "app environment not set, set default",
         Event.replaceGlobals zap.Logger.newExample,
         Event.info zap.Logger.newExample
           "logger instance created with config: \x7bEnvironment:production Level:info\x7d"]) :=
  (C5_GetLogger_fallback (fun _ => none) { Environment := Production, Level := zapcore.InfoLevel }
    (by decide) (by decide)).2.trans (by decide)

/-! ## C6 -/

theorem getZapFields_loop_some {α : Type} (fs : List (logger.Field α)) (acc : List (ZapField α)) :
    getZapFields.loop (fs.map some) acc =
      some (acc ++ fs.map (fun f => ZapField.Any f.Key f.Value)) := by
  induction fs generalizing acc with
  | nil => simp [getZapFields.loop]
  | cons f fs ih => simp [getZapFields.loop, ih]

/-- C6: for every context and every list `fs` of non-nil Fields (the slice
`fs.map some`), the plain field list is one `zap.Any(key, value)` per Field in
order, and the list the context-propagating methods hand to the sink is that
list followed by exactly one field `traceID` holding the trace identifier of the
context: its length is `len(fs)+1`, the traceID field is last, and `InfoCtx`,
`ErrorCtx`, `DebugCtx`, `WarnCtx` emit exactly it. -/
theorem C6_ctx_fields_append_traceID {α Ctx : Type} (traceID : Ctx → String) (ctx : Ctx)
    (msg : String) (fs : List (logger.Field α)) :
    getZapFields (fs.map some) = some (fs.map (fun f => ZapField.Any f.Key f.Value)) ∧
    (∃ zs : List (ZapField α),
      getZapFieldsWithCtx traceID ctx (fs.map some) = some zs ∧
      zs = fs.map (fun f => ZapField.Any f.Key f.Value) ++
        [ZapField.String "traceID" (traceID ctx)] ∧
      zs.length = fs.length + 1 ∧
      zs.getLast? = some (ZapField.String "traceID" (traceID ctx)) ∧
      InfoCtx traceID ctx msg (fs.map some) =
        some { Level := zapcore.InfoLevel, Msg := msg, Fields := zs, CallerSkip := 1 } ∧
      ErrorCtx traceID ctx msg (fs.map some) =
        some { Level := zapcore.ErrorLevel, Msg := msg, Fields := zs, CallerSkip := 1 } ∧
      DebugCtx traceID ctx msg (fs.map some) =
        some { Level := zapcore.DebugLevel, Msg := msg, Fields := zs, CallerSkip := 1 } ∧
      WarnCtx traceID ctx msg (fs.map some) =
        some { Level := zapcore.WarnLevel, Msg := msg, Fields := zs, CallerSkip := 1 }) := by
  have hplain : getZapFields (fs.map some) =
      some (fs.map (fun f => ZapField.Any f.Key f.Value)) := by
    simp [getZapFields, getZapFields_loop_some]
  have hctx : getZapFieldsWithCtx traceID ctx (fs.map some) =
      some (fs.map (fun f => ZapField.Any f.Key f.Value) ++
        [ZapField.String "traceID" (traceID ctx)]) := by
    simp [getZapFieldsWithCtx, hplain, getTracingIDs, traceIdKey]
  refine ⟨hplain, _, hctx, rfl, by simp, by simp, ?_, ?_, ?_, ?_⟩ <;>
    simp [InfoCtx, ErrorCtx, DebugCtx, WarnCtx, emit, hctx]

/-! ## C7 -/

theorem intercalate_go_append (x acc sep : String) (l : List String) :
    String.intercalate.go (x ++ acc) sep l = x ++ String.intercalate.go acc sep l := by
  induction l generalizing acc with
  | nil => simp [String.intercalate.go]
  | cons a as ih =>
    simp only [String.intercalate.go]
    rw [← ih]
    simp [String.append_assoc]

theorem intercalate_cons_cons (sep a b : String) (l : List String) :
    String.intercalate sep (a :: b :: l) = a ++ sep ++ String.intercalate sep (b :: l) := by
  simp only [String.intercalate, String.intercalate.go]
  rw [← intercalate_go_append]

/-- The lines of the rendered stack, numbered from `i`. -/
theorem buildStacktraceLogString_loop_eq (FuncForPC : Nat → Option RuntimeFunc) (len : Nat)
    (rest : List Nat) (i : Nat) (builder : String)
    (hlen : i + rest.length = len) (hne : rest ≠ []) :
    buildStacktraceLogString.loop FuncForPC len i rest builder =
      builder ++ String.intercalate "\n"
        ((List.enumFrom i rest).map (fun p => frameLine p.1 (NewStackFrame FuncForPC p.2))) := by
  induction rest generalizing i builder with
  | nil => exact absurd rfl hne
  | cons pc rest ih =>
    cases rest with
    | nil =>
      have hi : i = len - 1 := by simp at hlen; omega
      simp [buildStacktraceLogString.loop, hi, String.intercalate, String.intercalate.go]
    | cons pc2 rest2 =>
      have hi : i ≠ len - 1 := by simp at hlen; omega
      have := ih (i + 1) (builder ++ frameLine i (NewStackFrame FuncForPC pc) ++ "\n")
        (by simp at hlen ⊢; omega) (by simp)
      rw [buildStacktraceLogString.loop]
      simp only [hi, if_false]
      rw [this]
      simp only [List.enumFrom, List.map, intercalate_cons_cons, String.append_assoc]

/-- `intercalate` ends with the last element. -/
theorem intercalate_append_singleton (sep x : String) (l : List String) :
    ∃ pre, String.intercalate sep (l ++ [x]) = pre ++ x := by
  induction l with
  | nil => exact ⟨"", by simp [String.intercalate, String.intercalate.go]⟩
  | cons a l ih =>
    obtain ⟨pre, hpre⟩ := ih
    cases l with
    | nil =>
      exact ⟨a ++ sep, by simp [String.intercalate, String.intercalate.go]⟩
    | cons b l2 =>
      refine ⟨a ++ sep ++ pre, ?_⟩
      have : a :: b :: l2 ++ [x] = a :: b :: (l2 ++ [x]) := rfl
      rw [this, intercalate_cons_cons]
      have h2 : b :: (l2 ++ [x]) = b :: l2 ++ [x] := rfl
      rw [h2, hpre]
      simp [String.append_assoc]

theorem Nat_toDigitsCore_append (b : Nat) (f n : Nat) (ds : List Char) :
    Nat.toDigitsCore b f n ds = Nat.toDigitsCore b f n [] ++ ds := by
  induction f generalizing n ds with
  | zero => simp [Nat.toDigitsCore]
  | succ f ih =>
    simp only [Nat.toDigitsCore]
    split
    · simp
    · rw [ih, ih (n / b) [_]]
      simp

theorem Nat_toDigits_getLast (n : Nat) :
    (Nat.toDigits 10 n).getLast? = some (Nat.digitChar (n % 10)) := by
  unfold Nat.toDigits
  simp only [Nat.toDigitsCore]
  split
  · simp
  · rw [Nat_toDigitsCore_append]
    simp

theorem digitChar_ne_newline (d : Nat) (h : d < 10) : Nat.digitChar d ≠ '\n' := by
  interval_cases d <;> decide

theorem Nat_repr_getLast (n : Nat) :
    ∃ c, (Nat.repr n).data.getLast? = some c ∧ c ≠ '\n' :=
  ⟨Nat.digitChar (n % 10), by simp [Nat.repr, List.asString, Nat_toDigits_getLast],
    digitChar_ne_newline _ (Nat.mod_lt _ (by decide))⟩

theorem Int_toString_getLast (z : Int) :
    ∃ c, (toString z).data.getLast? = some c ∧ c ≠ '\n' := by
  cases z with
  | ofNat m =>
    obtain ⟨c, hc, hne⟩ := Nat_repr_getLast m
    exact ⟨c, by simpa [toString, instToStringInt, Int.repr] using hc, hne⟩
  | negSucc m =>
    obtain ⟨c, hc, hne⟩ := Nat_repr_getLast (m + 1)
    refine ⟨c, ?_, hne⟩
    have : (toString (Int.negSucc m)) = "-" ++ Nat.repr (m + 1) := rfl
    rw [this, String.data_append, List.getLast?_append, hc]
    simp

theorem frameLine_getLast (i : Nat) (f : StackFrame) :
    ∃ c, (frameLine i f).data.getLast? = some c ∧ c ≠ '\n' := by
  obtain ⟨c, hc, hne⟩ := Int_toString_getLast f.Line
  refine ⟨c, ?_, hne⟩
  unfold frameLine
  rw [String.data_append, List.getLast?_append, hc]
  simp

/-- C7: for every non-empty captured stack of n frames, `buildStacktraceLogString`
returns the header `Stack trace:` and a newline, followed by exactly n frame
lines joined by single newlines; line i (in capture order) is the index i
right-aligned to width 2, then `: <function> at <file>:<line>` of the i-th
frame; the result ends with the line of the final frame, and its last character
is not a newline. -/
theorem C7_buildStacktraceLogString (FuncForPC : Nat → Option RuntimeFunc) (stack : List Nat)
    (hne : stack ≠ []) :
    buildStacktraceLogString FuncForPC stack =
      "Stack trace:\n" ++ String.intercalate "\n"
        ((List.enum stack).map (fun p => frameLine p.1 (NewStackFrame FuncForPC p.2))) ∧
    ((List.enum stack).map (fun p => frameLine p.1 (NewStackFrame FuncForPC p.2))).length =
      stack.length ∧
    (∀ (i : Nat) (h : i < stack.length),
      ((List.enum stack).map (fun p => frameLine p.1 (NewStackFrame FuncForPC p.2)))[i]? =
        some (String.mk (List.replicate (2 - (toString i).length) ' ') ++ toString i ++ ": "
          ++ (NewStackFrame FuncForPC stack[i]).FuncName ++ " at "
          ++ (NewStackFrame FuncForPC stack[i]).Filename ++ ":"
          ++ toString (NewStackFrame FuncForPC stack[i]).Line)) ∧
    (∃ pre, buildStacktraceLogString FuncForPC stack =
      pre ++ frameLine (stack.length - 1) (NewStackFrame FuncForPC (stack.getLast hne))) ∧
    (∃ c, (buildStacktraceLogString FuncForPC stack).data.getLast? = some c ∧ c ≠ '\n') := by
  have hmain : buildStacktraceLogString FuncForPC stack =
      "Stack trace:\n" ++ String.intercalate "\n"
        ((List.enum stack).map (fun p => frameLine p.1 (NewStackFrame FuncForPC p.2))) := by
    unfold buildStacktraceLogString
    rw [buildStacktraceLogString_loop_eq FuncForPC stack.length stack 0 _ (by simp) hne]
    rfl
  have hlast : ∃ pre, buildStacktraceLogString FuncForPC stack =
      pre ++ frameLine (stack.length - 1) (NewStackFrame FuncForPC (stack.getLast hne)) := by
    have hsplit : stack = stack.dropLast ++ [stack.getLast hne] :=
      (List.dropLast_append_getLast hne).symm
    have hlen : stack.dropLast.length = stack.length - 1 := by simp
    obtain ⟨pre, hpre⟩ := intercalate_append_singleton "\n"
      (frameLine (stack.length - 1) (NewStackFrame FuncForPC (stack.getLast hne)))
      ((List.enum stack.dropLast).map (fun p => frameLine p.1 (NewStackFrame FuncForPC p.2)))
    refine ⟨"Stack trace:\n" ++ pre, ?_⟩
    rw [hmain, String.append_assoc, ← hpre]
    congr 2
    conv_lhs => rw [hsplit]
    simp [List.enum, List.enumFrom_append, hlen]
  refine ⟨hmain, by simp, ?_, hlast, ?_⟩
  · intro i h
    simp [List.enum, List.getElem?_enumFrom, h, frameLine, fmtIndex, List.getElem?_eq_getElem]
  · obtain ⟨pre, hpre⟩ := hlast
    obtain ⟨c, hc, hcne⟩ := frameLine_getLast (stack.length - 1)
      (NewStackFrame FuncForPC (stack.getLast hne))
    refine ⟨c, ?_, hcne⟩
    rw [hpre, String.data_append, List.getLast?_append, hc]
    simp

theorem C7_buildStacktraceLogString_witness :
    buildStacktraceLogString
        (fun pc => if pc = 7 then some ⟨"main.f", fun _ => ("a.go", 12)⟩ else none) [7, 8] =
      "Stack trace:\n 0: main.f at a.go:12\n 1:  at unknown:-1" :=
  (C7_buildStacktraceLogString
    (fun pc => if pc = 7 then some ⟨"main.f", fun _ => ("a.go", 12)⟩ else none) [7, 8]
    (by decide)).1.trans (by decide)

/-! ## C8 -/

theorem notDefined_port :
    notDefined "port" = some (.base (.errorf "field ('port') is not defined")) := by
  decide

theorem notDefined_timeout :
    notDefined "timeout" = some (.base (.errorf "field ('timeout') is not defined")) := by
  decide

theorem notDefined_maxReceiveSize :
    notDefined "maxReceiveSize" =
      some (.base (.errorf "field ('maxReceiveSize') is not defined")) := by
  decide

theorem notDefined_maxSendSize :
    notDefined "maxSendSize" = some (.base (.errorf "field ('maxSendSize') is not defined")) := by
  decide

theorem checkEmptyFields_eq_none_iff (c : GrpcConfig) :
    GrpcConfig.checkEmptyFields c = none ↔
      c.Port ≠ "" ∧ c.Timeout ≠ 0 ∧ c.MaxReceiveSize ≠ 0 ∧ c.MaxSendSize ≠ 0 := by
  unfold GrpcConfig.checkEmptyFields
  rw [notDefined_port, notDefined_timeout, notDefined_maxReceiveSize, notDefined_maxSendSize]
  by_cases hp : c.Port = "" <;> by_cases ht : c.Timeout = 0 <;>
    by_cases hr : c.MaxReceiveSize = 0 <;> by_cases hs : c.MaxSendSize = 0 <;>
    simp [hp, ht, hr, hs, multierr.AppendInto, multierr.Append]

theorem NewGrpcListener_invalid {L : Type} (listen : String → String → Except String L)
    (c : GrpcConfig) (err : GoError) (herr : GrpcConfig.checkEmptyFields c = some err) :
    NewGrpcListener listen c =
      ({ lis := none, deferFunc := none, err := some err },
        [Event.sugarError "error while checking config" err]) := by
  simp [NewGrpcListener, herr]

/-- A configuration with a zero numeric field is rejected before any bind. -/
theorem NewGrpcListener_of_zero {L : Type} (listen : String → String → Except String L)
    (c : GrpcConfig) (hzero : c.Timeout = 0 ∨ c.MaxReceiveSize = 0 ∨ c.MaxSendSize = 0) :
    GrpcConfig.checkEmptyFields c ≠ none ∧
    (NewGrpcListener listen c).1 =
      { lis := none, deferFunc := none, err := GrpcConfig.checkEmptyFields c } ∧
    ∀ network address : String,
      Event.netListen network address ∉ (NewGrpcListener listen c).2 := by
  have hfail : GrpcConfig.checkEmptyFields c ≠ none := by
    intro hn
    have := (checkEmptyFields_eq_none_iff c).1 hn
    rcases hzero with h | h | h
    · exact this.2.1 h
    · exact this.2.2.1 h
    · exact this.2.2.2 h
  cases hck : GrpcConfig.checkEmptyFields c with
  | none => exact absurd hck hfail
  | some err => simp [NewGrpcListener_invalid listen c err hck]

/-- C8: `GrpcConfig.checkEmptyFields` returns nil iff Port is non-empty and
Timeout, MaxReceiveSize, MaxSendSize are all nonzero; otherwise the combined
error has exactly one entry per violated field, in the order port, timeout,
maxReceiveSize, maxSendSize, and `NewGrpcListener` returns that error with no
socket and no release function, without calling `net.Listen`. -/
theorem C8_checkEmptyFields_aggregates {L : Type} (listen : String → String → Except String L)
    (c : GrpcConfig) :
    (GrpcConfig.checkEmptyFields c = none ↔
      c.Port ≠ "" ∧ c.Timeout ≠ 0 ∧ c.MaxReceiveSize ≠ 0 ∧ c.MaxSendSize ≠ 0) ∧
    multierr.Errors (GrpcConfig.checkEmptyFields c) =
      (if c.Port = "" then [BaseError.errorf "field ('port') is not defined"] else []) ++
      (if c.Timeout = 0 then [BaseError.errorf "field ('timeout') is not defined"] else []) ++
      (if c.MaxReceiveSize = 0 then [BaseError.errorf "field ('maxReceiveSize') is not defined"]
        else []) ++
      (if c.MaxSendSize = 0 then [BaseError.errorf "field ('maxSendSize') is not defined"]
        else []) ∧
    (∀ err : GoError, GrpcConfig.checkEmptyFields c = some err →
      NewGrpcListener listen c =
        ({ lis := none, deferFunc := none, err := some err },
          [Event.sugarError "error while checking config" err])) := by
  refine ⟨checkEmptyFields_eq_none_iff c, ?_, NewGrpcListener_invalid listen c⟩
  unfold GrpcConfig.checkEmptyFields
  rw [notDefined_port, notDefined_timeout, notDefined_maxReceiveSize, notDefined_maxSendSize]
  by_cases hp : c.Port = "" <;> by_cases ht : c.Timeout = 0 <;>
    by_cases hr : c.MaxReceiveSize = 0 <;> by_cases hs : c.MaxSendSize = 0 <;>
    simp [hp, ht, hr, hs, multierr.AppendInto, multierr.Append, multierr.Errors]

theorem C8_checkEmptyFields_aggregates_witness :
    NewGrpcListener (fun _ _ => Except.ok ())
        { Host := "localhost", Port := "", Timeout := 0, MaxReceiveSize := 1, MaxSendSize := 0 } =
      ({ lis := none, deferFunc := none,
         err := some (GoError.multi
          [BaseError.errorf "field ('port') is not defined",
           BaseError.errorf "field ('timeout') is not defined",
           BaseError.errorf "field ('maxSendSize') is not defined"]) },
        [Event.sugarError "error while checking config"
          (GoError.multi
            [BaseError.errorf "field ('port') is not defined",
             BaseError.errorf "field ('timeout') is not defined",
             BaseError.errorf "field ('maxSendSize') is not defined"])]) :=
  (C8_checkEmptyFields_aggregates (fun _ _ => Except.ok ())
    { Host := "localhost", Port := "", Timeout := 0, MaxReceiveSize := 1, MaxSendSize := 0 }).2.2
    _ (by decide)

/-! ## C9 and C10 -/

theorem Atoi_empty : (strconv.Atoi "").2 ≠ none := by decide

/-- The configuration `NewStandardGrpcConfig` returns once the host is set and
the port is an integer. -/
theorem NewStandardGrpcConfig_ok (env : Env) (host port : String)
    (hhost : env EnvGrpcHost = some host) (hport : env EnvGrpcPort = some port)
    (hint : (strconv.Atoi port).2 = none) :
    NewStandardGrpcConfig env =
      (some
        { Host := host
          Port := port
          Timeout := if env EnvGrpcTimeout = none then 30000 else 0
          MaxReceiveSize := if env EnvMaxGrpcReceive = none then 1073741824 else 0
          MaxSendSize := if env EnvMaxGrpcSend = none then 1073741824 else 0 },
       none) := by
  have d1 : DefGrpcTimeout = 30000 := rfl
  have d2 : DefMaxGrpcReceive = 1073741824 := by decide
  simp [NewStandardGrpcConfig, hhost, hport, hint, d1, d2]

/-- C9 (counterexample): with only `GRPC_HOST` and an integer `GRPC_PORT` set,
the returned configuration holds the defaults 30000, 1 GiB, 1 GiB, not zeros,
and it passes `checkEmptyFields`. -/
theorem C9_counterexample :
    NewStandardGrpcConfig (envOf [("GRPC_HOST", "localhost"), ("GRPC_PORT", "8080")]) =
      (some { Host := "localhost", Port := "8080", Timeout := 30000,
              MaxReceiveSize := 1073741824, MaxSendSize := 1073741824 }, none) ∧
    GrpcConfig.checkEmptyFields
      { Host := "localhost", Port := "8080", Timeout := 30000,
        MaxReceiveSize := 1073741824, MaxSendSize := 1073741824 } = none := by
  decide

/-- C9 (amended): when `GRPC_HOST` and an integer `GRPC_PORT` are set and
`CONTEXT_TIMEOUT`, `MAX_GRPC_RECEIVE`, `MAX_GRPC_SEND` are absent, the fallback
defaults (30000, 1 GiB, 1 GiB) are the Timeout, MaxReceiveSize and MaxSendSize of
the configuration `NewStandardGrpcConfig` returns, and that configuration passes
the non-zero-field check `checkEmptyFields`. -/
theorem C9_defaults_populate_config (env : Env) (host port : String)
    (hhost : env EnvGrpcHost = some host) (hport : env EnvGrpcPort = some port)
    (hint : (strconv.Atoi port).2 = none)
    (ht : env EnvGrpcTimeout = none) (hr : env EnvMaxGrpcReceive = none)
    (hs : env EnvMaxGrpcSend = none) :
    NewStandardGrpcConfig env =
      (some { Host := host, Port := port, Timeout := 30000,
              MaxReceiveSize := 1024 * 1024 * 1024, MaxSendSize := 1024 * 1024 * 1024 }, none) ∧
    GrpcConfig.checkEmptyFields
      { Host := host, Port := port, Timeout := 30000,
        MaxReceiveSize := 1024 * 1024 * 1024, MaxSendSize := 1024 * 1024 * 1024 } = none := by
  have hne : port ≠ "" := by
    rintro rfl
    exact Atoi_empty hint
  constructor
  · rw [NewStandardGrpcConfig_ok env host port hhost hport hint]
    simp [ht, hr, hs]
  · simp [GrpcConfig.checkEmptyFields, hne]

theorem C9_defaults_populate_config_witness :
    NewStandardGrpcConfig (envOf [("GRPC_HOST", "0.0.0.0"), ("GRPC_PORT", "50051")]) =
      (some { Host := "0.0.0.0", Port := "50051", Timeout := 30000,
              MaxReceiveSize := 1024 * 1024 * 1024, MaxSendSize := 1024 * 1024 * 1024 }, none) ∧
    GrpcConfig.checkEmptyFields
      { Host := "0.0.0.0", Port := "50051", Timeout := 30000,
        MaxReceiveSize := 1024 * 1024 * 1024, MaxSendSize := 1024 * 1024 * 1024 } = none :=
  C9_defaults_populate_config (envOf [("GRPC_HOST", "0.0.0.0"), ("GRPC_PORT", "50051")])
    "0.0.0.0" "50051" (by decide) (by decide) (by decide) (by decide) (by decide) (by decide)

/-- C10: when `GRPC_HOST` and an integer `GRPC_PORT` are set,
`NewStandardGrpcConfig` succeeds, and each of Timeout, MaxReceiveSize,
MaxSendSize of the returned configuration is 0 exactly when its variable
(`CONTEXT_TIMEOUT`, `MAX_GRPC_RECEIVE`, `MAX_GRPC_SEND`) is present, whatever its
value, and is the default (30000, 1073741824, 1073741824) exactly when it is
absent; so if any of the three is set, `NewGrpcListener` on that configuration
fails validation, returns no socket and no release function, and never calls
`net.Listen`. -/
theorem C10_present_variable_zeroes_field {L : Type} (listen : String → String → Except String L)
    (env : Env) (host port : String)
    (hhost : env EnvGrpcHost = some host) (hport : env EnvGrpcPort = some port)
    (hint : (strconv.Atoi port).2 = none) :
    ∃ c : GrpcConfig, NewStandardGrpcConfig env = (some c, none) ∧
      c.Host = host ∧ c.Port = port ∧
      (c.Timeout = 0 ↔ env EnvGrpcTimeout ≠ none) ∧
      (c.Timeout = 30000 ↔ env EnvGrpcTimeout = none) ∧
      (c.MaxReceiveSize = 0 ↔ env EnvMaxGrpcReceive ≠ none) ∧
      (c.MaxReceiveSize = 1073741824 ↔ env EnvMaxGrpcReceive = none) ∧
      (c.MaxSendSize = 0 ↔ env EnvMaxGrpcSend ≠ none) ∧
      (c.MaxSendSize = 1073741824 ↔ env EnvMaxGrpcSend = none) ∧
      (env EnvGrpcTimeout ≠ none ∨ env EnvMaxGrpcReceive ≠ none ∨ env EnvMaxGrpcSend ≠ none →
        GrpcConfig.checkEmptyFields c ≠ none ∧
        (NewGrpcListener listen c).1 =
          { lis := none, deferFunc := none, err := GrpcConfig.checkEmptyFields c } ∧
        ∀ network address : String,
          Event.netListen network address ∉ (NewGrpcListener listen c).2) := by
  refine ⟨_, NewStandardGrpcConfig_ok env host port hhost hport hint, rfl, rfl, ?_, ?_, ?_, ?_,
    ?_, ?_, ?_⟩
  · by_cases h : env EnvGrpcTimeout = none <;> simp [h]
  · by_cases h : env EnvGrpcTimeout = none <;> simp [h]
  · by_cases h : env EnvMaxGrpcReceive = none <;> simp [h]
  · by_cases h : env EnvMaxGrpcReceive = none <;> simp [h]
  · by_cases h : env EnvMaxGrpcSend = none <;> simp [h]
  · by_cases h : env EnvMaxGrpcSend = none <;> simp [h]
  · intro hany
    apply NewGrpcListener_of_zero
    rcases hany with h | h | h
    · exact Or.inl (by simp [h])
    · exact Or.inr (Or.inl (by simp [h]))
    · exact Or.inr (Or.inr (by simp [h]))

theorem C10_present_variable_zeroes_field_witness :
    ∃ c : GrpcConfig,
      NewStandardGrpcConfig
        (envOf [("GRPC_HOST", "localhost"), ("GRPC_PORT", "8080"), ("CONTEXT_TIMEOUT", "5000")]) =
        (some c, none) ∧
      c.Timeout = 0 ∧ c.MaxReceiveSize = 1073741824 ∧ c.MaxSendSize = 1073741824 ∧
      (NewGrpcListener (fun _ _ => Except.ok ()) c).1 =
        { lis := none, deferFunc := none,
          err := some (GoError.base (BaseError.errorf "field ('timeout') is not defined")) } := by
  obtain ⟨c, h0, _, hp, h1, _, _, h4, _, h6, h7⟩ :=
    C10_present_variable_zeroes_field (fun _ _ => Except.ok ())
      (envOf [("GRPC_HOST", "localhost"), ("GRPC_PORT", "8080"), ("CONTEXT_TIMEOUT", "5000")])
      "localhost" "8080" (by decide) (by decide) (by decide)
  have ht : c.Timeout = 0 := h1.2 (by decide)
  have hr : c.MaxReceiveSize = 1073741824 := h4.2 (by decide)
  have hs : c.MaxSendSize = 1073741824 := h6.2 (by decide)
  refine ⟨c, h0, ht, hr, hs, ?_⟩
  rw [(h7 (Or.inl (by decide))).2.1]
  simp [GrpcConfig.checkEmptyFields, hp, ht, hr, hs, multierr.AppendInto, multierr.Append,
    notDefined_timeout]

end Tools
